import Mathlib

/-!
Verification development for the rbc-codex-proxy repository.

Shallow embedding of the three core components against which the spec's
claims are settled:

* `Metrics` — `src/metrics.js` (`MetricsCollector`): event buffers with
  capacity eviction, counters, derived snapshots.
* `OAuth` — `src/oauth-manager.js` (`OAuthManager`): cached credential,
  expiry tracking, on-demand and scheduled refresh.
* `Handler` — `src/proxy-handler.js` (`ProxyHandler`): the two generation
  endpoints, parameter merging, metrics events, error formatting.

Timestamps are modelled as natural numbers of milliseconds since the epoch
(JavaScript `Date.now()`).  JavaScript truthiness on the values that matter
is modelled explicitly: a number is falsy exactly when it is `0`, a string
exactly when it is empty, `undefined`/`null` is `Option.none`.
-/

namespace Metrics

/-- A stored request event.  `MetricsCollector.recordRequest` spreads the
incoming data and overwrites `timestamp` with the record time, so the stored
`timestamp` is always the time of recording.  `model` is `none` when the
caller supplied no model field (JS `undefined`). -/
structure RequestEvent where
  id : String
  model : Option String
  endpoint : String
  timestamp : Nat
deriving Repr, DecidableEq

/-- A stored response event (`MetricsCollector.recordResponse` input).
`duration = 0` models a JS falsy duration (the code guards `if (data.duration)`
before accumulating). -/
structure ResponseEvent where
  id : String
  duration : Nat
  status : String
  error : Option String
deriving Repr, DecidableEq

/-- JS `Map.prototype.set` on an insertion-ordered association list (a JS
`Map` holds each key at most once): if the key is present its value is
replaced in place, keeping its insertion position; otherwise the binding is
appended at the end. -/
def mapSet : List (String × ResponseEvent) → String → ResponseEvent →
    List (String × ResponseEvent)
  | [], k, v => [(k, v)]
  | p :: l, k, v => if p.1 = k then (k, v) :: l else p :: mapSet l k v

/-- JS plain-object counter increment `obj[k] = (obj[k] || 0) + 1` on an
insertion-ordered association list (a JS object holds each key at most
once): bump the binding in place if present, else append `(k, 1)`. -/
def objIncr : List (String × Nat) → String → List (String × Nat)
  | [], k => [(k, 1)]
  | p :: l, k => if p.1 = k then (p.1, p.2 + 1) :: l else p :: objIncr l k

/-- Lookup in a JS plain object used as a counter: first binding wins,
missing key reads as 0. -/
def getObj (m : List (String × Nat)) (k : String) : Nat :=
  match m.find? (fun p => p.1 = k) with
  | some p => p.2
  | none => 0

/-- State of `MetricsCollector` (constructor fields of `src/metrics.js`). -/
structure MetricsState where
  requests : List RequestEvent
  responses : List (String × ResponseEvent)
  modelCounts : List (String × Nat)
  errorCount : Nat
  successCount : Nat
  totalDuration : Nat
  startTime : Nat
deriving Repr, DecidableEq

/-- `this.maxStoredRequests = 100` — capacity of both buffers. -/
def maxStoredRequests : Nat := 100

/-- `new MetricsCollector()`: empty buffers, zero counters, creation time. -/
def initMetrics (startTime : Nat) : MetricsState :=
  { requests := []
    responses := []
    modelCounts := []
    errorCount := 0
    successCount := 0
    totalDuration := 0
    startTime := startTime }

/-- JS string truthiness for the optional model field:
`undefined` and the empty string are falsy. -/
def truthyModel : Option String → Bool
  | none => false
  | some s => s ≠ ""

/-- `MetricsCollector.recordRequest(data)`: stores the event with `timestamp`
overwritten by the record time `now`, bumps the per-model counter when
`data.model` is truthy, then trims to the last `maxStoredRequests` entries
(`this.requests.slice(-this.maxStoredRequests)`). -/
def recordRequest (s : MetricsState) (data : RequestEvent) (now : Nat) : MetricsState :=
  let stored : RequestEvent := { data with timestamp := now }
  let requests := s.requests ++ [stored]
  let modelCounts :=
    match data.model with
    | some m => if m ≠ "" then objIncr s.modelCounts m else s.modelCounts
    | none => s.modelCounts
  let requests :=
    if requests.length > maxStoredRequests then
      requests.drop (requests.length - maxStoredRequests)
    else requests
  { s with requests := requests, modelCounts := modelCounts }

/-- `MetricsCollector.recordResponse(data)`: inserts into the id-keyed map,
bumps success/error counters, accumulates truthy durations, then evicts the
oldest-inserted key when the map exceeds capacity
(`this.responses.keys().next().value` is the first key in insertion order). -/
def recordResponse (s : MetricsState) (data : ResponseEvent) : MetricsState :=
  let responses := mapSet s.responses data.id data
  let successCount := if data.status = "success" then s.successCount + 1 else s.successCount
  let errorCount := if data.status = "success" then s.errorCount else s.errorCount + 1
  let totalDuration := if data.duration ≠ 0 then s.totalDuration + data.duration else s.totalDuration
  let responses := if responses.length > maxStoredRequests then responses.drop 1 else responses
  { s with responses := responses, successCount := successCount,
           errorCount := errorCount, totalDuration := totalDuration }

/-- One call into the collector, for reasoning about arbitrary call
sequences.  `req` carries the record time because `recordRequest` stamps
the stored event with it. -/
inductive MetricsOp where
  | req (data : RequestEvent) (now : Nat)
  | resp (data : ResponseEvent)
deriving Repr, DecidableEq

/-- Apply one collector call. -/
def applyOp (s : MetricsState) : MetricsOp → MetricsState
  | .req data now => recordRequest s data now
  | .resp data => recordResponse s data

/-- Apply a sequence of collector calls, oldest first. -/
def applyOps (s : MetricsState) (ops : List MetricsOp) : MetricsState :=
  ops.foldl applyOp s

/-- Milliseconds per hour, the bucket width of `getHourlyStats`. -/
def msPerHour : Nat := 3600000

/-- The calendar hour of a timestamp.  In the JS code the key is
`toISOString().substr(0, 13)` (the `YYYY-MM-DDTHH` part), which identifies
the same hour as flooring the millisecond count to hour granularity. -/
def hourKey (t : Nat) : Nat := t / msPerHour

/-- The keys initialised by the `for (let i = 23; i >= 0; i--)` loop of
`getHourlyStats`: the 24 trailing calendar hours, oldest first. -/
def hourKeys (now : Nat) : List Nat :=
  (List.range 24).reverse.map (fun i => (now - i * msPerHour) / msPerHour)

/-- `MetricsCollector.getHourlyStats()`: a 24-bucket histogram over the
trailing 24 calendar hours; each bucket counts the stored requests whose
timestamp falls in that hour (requests outside the window are skipped by the
`hasOwnProperty` guard).  The JS code accumulates into a plain object whose
keys are the hour strings; for any realistic clock (`23 * msPerHour ≤ now`)
the 24 keys are pairwise distinct, so the association list below is the
object's entry list in insertion order.  The JS code finally relabels each
key to its hour-of-day string; the full hour index kept here determines that
label. -/
def getHourlyStats (s : MetricsState) (now : Nat) : List (Nat × Nat) :=
  (hourKeys now).map
    (fun k => (k, (s.requests.filter (fun r => hourKey r.timestamp == k)).length))

/-- `Math.round(a / b)` for non-negative `a` and positive `b`. -/
def roundDiv (a b : Nat) : Nat := (2 * a + b) / (2 * b)

/-- The snapshot returned by `MetricsCollector.getMetrics()`.  The
`successRate` field of the JS object is a decimal string
(`toFixed(1)` of a float) and is not modelled; no claim concerns it. -/
structure Snapshot where
  uptime : Nat
  totalRequests : Nat
  successCount : Nat
  errorCount : Nat
  avgResponseTime : Nat
  modelUsage : List (String × Nat)
  recentRequests : List RequestEvent
  hourlyCounts : List (Nat × Nat)
deriving Repr, DecidableEq

/-- `MetricsCollector.getMetrics()` evaluated at clock time `now`. -/
def getMetrics (s : MetricsState) (now : Nat) : Snapshot :=
  let totalRequests := s.successCount + s.errorCount
  { uptime := (now - s.startTime) / 1000
    totalRequests := totalRequests
    successCount := s.successCount
    errorCount := s.errorCount
    avgResponseTime := if totalRequests > 0 then roundDiv s.totalDuration totalRequests else 0
    modelUsage := s.modelCounts
    recentRequests := (s.requests.drop (s.requests.length - 20)).reverse
    hourlyCounts := getHourlyStats s now }

/-- The view returned by `MetricsCollector.getSummary()`. -/
structure Summary where
  total : Nat
  success : Nat
  errors : Nat
  models : Nat
deriving Repr, DecidableEq

/-- `MetricsCollector.getSummary()`. -/
def getSummary (s : MetricsState) : Summary :=
  { total := s.successCount + s.errorCount
    success := s.successCount
    errors := s.errorCount
    models := s.modelCounts.length }

/-- `MetricsCollector.reset()`: clears buffers and counters;
`this.startTime` is not touched. -/
def reset (s : MetricsState) : MetricsState :=
  { s with requests := []
           responses := []
           modelCounts := []
           errorCount := 0
           successCount := 0
           totalDuration := 0 }

/-- Whether a collector call is a `recordResponse`. -/
def isRespOp : MetricsOp → Bool
  | .resp _ => true
  | .req _ _ => false

/-- Whether a collector call is a `recordResponse` with success status. -/
def isSuccessRespOp : MetricsOp → Bool
  | .resp d => decide (d.status = "success")
  | .req _ _ => false

/-- Whether a collector call is a `recordResponse` with non-success status. -/
def isErrorRespOp : MetricsOp → Bool
  | .resp d => !decide (d.status = "success")
  | .req _ _ => false

/-- Whether a collector call is a `recordRequest` that bumps the counter of
model `m` (the request carries a truthy model equal to `m`). -/
def opCountsModel (m : String) : MetricsOp → Bool
  | .req d _ => decide (d.model = some m) && decide (m ≠ "")
  | .resp _ => false

/-- A collector state with both buffers exactly at capacity, for
instantiating the eviction statements: 100 stored requests and 100 stored
responses under pairwise distinct keys (the key of entry `i` is a string of
`i` letters). -/
def sampleFullState : MetricsState :=
  { requests := List.replicate 100
      { id := "q", model := some "m", endpoint := "/v1/chat/completions", timestamp := 0 }
    responses := (List.range 100).map (fun i =>
      (String.mk (List.replicate i 'a'),
       { id := String.mk (List.replicate i 'a'), duration := 1
         status := "success", error := none }))
    modelCounts := []
    errorCount := 0
    successCount := 0
    totalDuration := 0
    startTime := 0 }

end Metrics

namespace OAuth

/-- The mutable credential state of `OAuthManager`
(`this.token`, `this.tokenExpiry` in `src/oauth-manager.js`); both start as
`null`.  Expiry is in milliseconds since the epoch. -/
structure OAuthState where
  token : Option String
  tokenExpiry : Option Nat
deriving Repr, DecidableEq

/-- JS truthiness of `this.token`: `null` and the empty string are falsy. -/
def truthyToken : Option String → Bool
  | none => false
  | some s => s ≠ ""

/-- `OAuthManager.hasValidToken()`: `this.token && Date.now() < this.tokenExpiry`.
A `null` expiry coerces to 0 in the JS comparison. -/
def hasValidToken (s : OAuthState) (now : Nat) : Bool :=
  truthyToken s.token && decide (now < s.tokenExpiry.getD 0)

/-- The upstream token endpoint's response body, as read by `fetchToken`:
`response.data.access_token` and `response.data.expires_in`
(`none` models an absent field). -/
structure TokenResponse where
  access_token : String
  expires_in : Option Nat
deriving Repr, DecidableEq

/-- JS `v || d` for an optional number: absent and 0 are falsy. -/
def jsOrNum (v : Option Nat) (d : Nat) : Nat :=
  match v with
  | some n => if n = 0 then d else n
  | none => d

/-- The state update of a successful `OAuthManager.fetchToken()` at clock
time `now`:
`this.token = response.data.access_token;`
`const expiresIn = response.data.expires_in || 3600;`
`this.tokenExpiry = Date.now() + (expiresIn * 1000);` -/
def fetchTokenSuccess (_s : OAuthState) (resp : TokenResponse) (now : Nat) : OAuthState :=
  { token := some resp.access_token
    tokenExpiry := some (now + jsOrNum resp.expires_in 3600 * 1000) }

/-- The state effect of a failed `OAuthManager.fetchToken()`: the `catch`
block only logs and rethrows; `this.token` and `this.tokenExpiry` are not
modified. -/
def fetchTokenFailure (s : OAuthState) : OAuthState := s

/-- One firing of the `startAutoRefresh` interval callback: it awaits
`fetchToken()` inside `try { ... } catch { log }`, so a failure is swallowed
and leaves the state as `fetchTokenFailure` does. -/
def scheduledRefresh (s : OAuthState) (outcome : Except String TokenResponse) (now : Nat) :
    OAuthState :=
  match outcome with
  | .ok resp => fetchTokenSuccess s resp now
  | .error _ => fetchTokenFailure s

/-- What the synchronous prefix of one `OAuthManager.getToken()` call does:
either resolve immediately with the cached token, or initiate a
`fetchToken()` upstream call. -/
inductive GetTokenAction where
  | cached (t : String)
  | fetch
deriving Repr, DecidableEq

/-- `OAuthManager.getToken()` up to its first suspension point: if
`hasValidToken()` it returns the cached token without fetching; otherwise it
calls `fetchToken()`, which starts an upstream request. -/
def getTokenStep (s : OAuthState) (now : Nat) : GetTokenAction :=
  if hasValidToken s now then .cached (s.token.getD "") else .fetch

/-- Number of upstream fetches started when `n` concurrent `getToken()`
calls arrive at clock time `now` in state `s`, before any of the started
fetches resolves.  Under the single-threaded cooperative model each call
runs its synchronous prefix to the first `await`; neither `getToken` nor the
prefix of `fetchToken` (everything before `await axiosInstance.post`)
mutates `this.token`/`this.tokenExpiry`, and `OAuthManager` stores no
pending-fetch handle, so every prefix observes the same state `s`. -/
def concurrentGetTokenFetchCount (s : OAuthState) (now : Nat) (n : Nat) : Nat :=
  ((List.range n).map (fun _ => getTokenStep s now)).count .fetch

/-- The value returned by `OAuthManager.getNextRefreshTime()` when a
credential exists. -/
structure RefreshInfo where
  seconds : Nat
  time : Nat
deriving Repr, DecidableEq

/-- `OAuthManager.getNextRefreshTime()`: `null` when `this.tokenExpiry` is
falsy, else remaining whole seconds (clamped at 0, which Nat subtraction
gives directly) and the absolute expiry instant. -/
def getNextRefreshTime (s : OAuthState) (now : Nat) : Option RefreshInfo :=
  if s.tokenExpiry.getD 0 = 0 then none
  else some { seconds := (s.tokenExpiry.getD 0 - now) / 1000, time := s.tokenExpiry.getD 0 }

end OAuth

namespace Handler

/-- The optional generation parameters of an inbound JSON body
(`req.body` as read by both handlers).  `none` models an absent field
(JS `undefined`).  `max_tokens` is an integer; the four scalar knobs are
rationals standing in for JS numbers — the only facts used about them are
equality and whether a caller-supplied value survives the merge. -/
structure GenParams where
  max_tokens : Option Int
  temperature : Option ℚ
  top_p : Option ℚ
  frequency_penalty : Option ℚ
  presence_penalty : Option ℚ
deriving Repr, DecidableEq

/-- The process-wide generation defaults, read from the environment on every
request (`parseInt(process.env.MAX_TOKENS || '4096')` and friends). -/
structure ProxyConfig where
  maxTokens : Int
  temperature : ℚ
  topP : ℚ
  frequencyPenalty : ℚ
  presencePenalty : ℚ
deriving Repr, DecidableEq

/-- The defaults used when no environment override is set:
`'4096'`, `'0.7'`, `'1.0'`, `'0'`, `'0'`. -/
def defaultConfig : ProxyConfig :=
  { maxTokens := 4096
    temperature := 7 / 10
    topP := 1
    frequencyPenalty := 0
    presencePenalty := 0 }

/-- The generation parameters of the merged `requestBody` both handlers
forward upstream. -/
structure MergedParams where
  max_tokens : Int
  temperature : ℚ
  top_p : ℚ
  frequency_penalty : ℚ
  presence_penalty : ℚ
deriving Repr, DecidableEq

/-- The `requestBody` merge common to `handleChatCompletion` and
`handleCompletion`:
`max_tokens: req.body.max_tokens || <default>` — a truthiness test, so an
explicit 0 falls back to the default — while the other four use
`!== undefined` tests, so any explicit value (including 0) survives. -/
def mergeParams (body : GenParams) (cfg : ProxyConfig) : MergedParams :=
  { max_tokens :=
      match body.max_tokens with
      | some v => if v = 0 then cfg.maxTokens else v
      | none => cfg.maxTokens
    temperature := body.temperature.getD cfg.temperature
    top_p := body.top_p.getD cfg.topP
    frequency_penalty := body.frequency_penalty.getD cfg.frequencyPenalty
    presence_penalty := body.presence_penalty.getD cfg.presencePenalty }

/-- An axios-style error as inspected by `formatErrorResponse`:
`responseStatus = some st` models `error.response` being present with HTTP
status `st`; `none` models a network-level failure with no response. -/
structure JsError where
  message : String
  responseStatus : Option Nat
deriving Repr, DecidableEq

/-- The response-body shapes the handlers can produce.  `relayedError`
covers both an upstream error body relayed verbatim and the `api_error`
fallback envelope used when `error.response.data` is falsy; no claim
distinguishes the two. -/
inductive RespBody where
  | authError
  | relayed
  | relayedError
  | proxyError (msg : String)
deriving Repr, DecidableEq

/-- `ProxyHandler.formatErrorResponse(error)`: relay the upstream status
when a response exists, else a 500 `proxy_error` envelope carrying
`error.message`. -/
def formatErrorResponse (e : JsError) : Nat × RespBody :=
  match e.responseStatus with
  | some st => (st, .relayedError)
  | none => (500, .proxyError e.message)

/-- A call into the metrics collector made by a handler, in program order. -/
inductive MetricsEvent where
  | request (id : String) (model : Option String) (endpoint : String)
  | response (id : String) (status : String)
deriving Repr, DecidableEq

/-- Whether a recorded metrics event is a RequestEvent. -/
def MetricsEvent.isRequest : MetricsEvent → Bool
  | .request _ _ _ => true
  | .response _ _ => false

/-- An inbound generation request as the handlers read it: the
`Authorization` header (absent = `none`), the `model` field, and the
optional generation parameters. -/
structure InboundRequest where
  authorization : Option String
  model : Option String
  params : GenParams
deriving Repr, DecidableEq

/-- Outcomes of the two awaited upstream interactions a handler performs:
the credential fetch (`oauthManager.getToken()`) and the generation call
(`axiosInstance.post`, which rejects with a `JsError` for non-2xx or network
failure and fulfils with the 2xx status otherwise). -/
structure HandlerEnv where
  getTokenResult : Except JsError String
  upstream : Except JsError Nat
deriving Repr

/-- The `handleChatCompletion` entry check:
`!authHeader || !authHeader.startsWith('Bearer ')` rejects.  An absent or
empty header fails `startsWith` as well, so one test captures both.
`startsWith` is expressed on the character sequence: the first seven
characters must be exactly `Bearer` followed by a space. -/
def bearerOk (auth : Option String) : Bool :=
  match auth with
  | none => false
  | some a => a.data.take 7 == "Bearer ".data

/-- What one handler invocation did: the HTTP status and body sent to the
caller, the metrics-collector calls in program order, whether an upstream
generation call was issued, and the body it forwarded (if any). -/
structure HandlerResult where
  status : Nat
  body : RespBody
  events : List MetricsEvent
  calledUpstream : Bool
  forwarded : Option MergedParams
deriving Repr, DecidableEq

/-- `ProxyHandler.handleChatCompletion(req, res)` for the buffered case.
Control flow of the source: reject with 401 before anything else when the
bearer check fails (no metrics call, no upstream call); then
`await getToken()` — if it rejects, the catch block records a single error
ResponseEvent (no RequestEvent was recorded) and answers via
`formatErrorResponse`; otherwise merge parameters, record the RequestEvent,
issue the upstream call, and record a success/error ResponseEvent.  The
streaming branch records exactly the same metrics events. -/
def handleChatCompletion (req : InboundRequest) (cfg : ProxyConfig) (env : HandlerEnv)
    (requestId : String) : HandlerResult :=
  if bearerOk req.authorization then
    match env.getTokenResult with
    | .error e =>
      let fe := formatErrorResponse e
      { status := fe.1, body := fe.2
        events := [.response requestId "error"]
        calledUpstream := false, forwarded := none }
    | .ok _tok =>
      let merged := mergeParams req.params cfg
      let evReq := MetricsEvent.request requestId req.model "/v1/chat/completions"
      match env.upstream with
      | .ok st =>
        { status := st, body := .relayed
          events := [evReq, .response requestId "success"]
          calledUpstream := true, forwarded := some merged }
      | .error e =>
        let fe := formatErrorResponse e
        { status := fe.1, body := fe.2
          events := [evReq, .response requestId "error"]
          calledUpstream := true, forwarded := some merged }
  else
    { status := 401, body := .authError, events := []
      calledUpstream := false, forwarded := none }

/-- `ProxyHandler.handleCompletion(req, res)`: same shape as the chat
handler except for the target sub-path — and the source performs no
Authorization check at all on this endpoint. -/
def handleCompletion (req : InboundRequest) (cfg : ProxyConfig) (env : HandlerEnv)
    (requestId : String) : HandlerResult :=
  match env.getTokenResult with
  | .error e =>
    let fe := formatErrorResponse e
    { status := fe.1, body := fe.2
      events := [.response requestId "error"]
      calledUpstream := false, forwarded := none }
  | .ok _tok =>
    let merged := mergeParams req.params cfg
    let evReq := MetricsEvent.request requestId req.model "/v1/completions"
    match env.upstream with
    | .ok st =>
      { status := st, body := .relayed
        events := [evReq, .response requestId "success"]
        calledUpstream := true, forwarded := some merged }
    | .error e =>
      let fe := formatErrorResponse e
      { status := fe.1, body := fe.2
        events := [evReq, .response requestId "error"]
        calledUpstream := true, forwarded := some merged }

/-- A body with every generation parameter absent. -/
def noParams : GenParams :=
  { max_tokens := none, temperature := none, top_p := none
    frequency_penalty := none, presence_penalty := none }

end Handler

/-- C9: `reset()` clears all stored request events, the response mapping, the
per-model counts, and the success/error/duration counters, leaves the
aggregator's start time unchanged, and therefore the uptime reported by any
subsequent snapshot is the same as it would have been without the reset. -/
theorem C9_reset_clears_all_but_startTime (s : Metrics.MetricsState) (now : Nat) :
    (Metrics.reset s).requests = [] ∧
    (Metrics.reset s).responses = [] ∧
    (Metrics.reset s).modelCounts = [] ∧
    (Metrics.reset s).successCount = 0 ∧
    (Metrics.reset s).errorCount = 0 ∧
    (Metrics.reset s).totalDuration = 0 ∧
    (Metrics.reset s).startTime = s.startTime ∧
    (Metrics.getMetrics (Metrics.reset s) now).uptime = (Metrics.getMetrics s now).uptime :=
  ⟨rfl, rfl, rfl, rfl, rfl, rfl, rfl, rfl⟩

/-- C1 counterexample: with an expired cached credential
(token `"tok"`, expiry 1000, clock 2000), two concurrent `getToken()` calls
start two upstream fetches, not the single fetch the claim requires:
`getToken` calls `fetchToken()` directly and the manager keeps no shared
pending-fetch handle. -/
theorem C1_counterexample_two_calls_two_fetches :
    OAuth.hasValidToken { token := some "tok", tokenExpiry := some 1000 } 2000 = false ∧
    OAuth.concurrentGetTokenFetchCount
      { token := some "tok", tokenExpiry := some 1000 } 2000 2 = 2 ∧
    OAuth.concurrentGetTokenFetchCount
      { token := some "tok", tokenExpiry := some 1000 } 2000 2 ≠ 1 := by
  decide

/-- C1 (amended): when the cached credential is expired, each of the `n`
concurrent `getToken()` calls starts its own upstream fetch — `n` fetches in
total; there is no shared pending-fetch handle deduplicating them. -/
theorem C1_each_expired_concurrent_call_fetches (s : OAuth.OAuthState) (now n : Nat)
    (h : OAuth.hasValidToken s now = false) :
    OAuth.concurrentGetTokenFetchCount s now n = n := by
  unfold OAuth.concurrentGetTokenFetchCount OAuth.getTokenStep
  simp [h, List.count_replicate_self]

/-- Witness for C1 (amended) at a concrete expired state and `n = 3`. -/
theorem C1_each_expired_concurrent_call_fetches_witness :
    OAuth.hasValidToken { token := some "t", tokenExpiry := some 5 } 10 = false ∧
    OAuth.concurrentGetTokenFetchCount { token := some "t", tokenExpiry := some 5 } 10 3 = 3 :=
  ⟨by decide, C1_each_expired_concurrent_call_fetches _ 10 3 (by decide)⟩

/-- C5 counterexample: if the upstream token response reports a lifetime of
0 seconds at fetch time 0, the stored expiry is 3,600,000 ms (the hardcoded
one-hour fallback of `expires_in || 3600`), not fetch time plus the reported
lifetime (which would be 0). -/
theorem C5_counterexample_zero_lifetime_gets_default :
    (OAuth.fetchTokenSuccess { token := none, tokenExpiry := none }
      { access_token := "t", expires_in := some 0 } 0).tokenExpiry = some 3600000 ∧
    (OAuth.fetchTokenSuccess { token := none, tokenExpiry := none }
      { access_token := "t", expires_in := some 0 } 0).tokenExpiry ≠ some (0 + 0 * 1000) := by
  decide

/-- C5 (amended): after a successful fetch the stored token is the reported
access token, and the stored expiry is the fetch time plus the
upstream-reported lifetime whenever that lifetime is present and nonzero;
when it is absent or zero, the expiry is the fetch time plus a hardcoded
3600-second default instead. -/
theorem C5_expiry_from_reported_lifetime_or_default (s : OAuth.OAuthState)
    (resp : OAuth.TokenResponse) (now : Nat) :
    (OAuth.fetchTokenSuccess s resp now).token = some resp.access_token ∧
    (∀ e, resp.expires_in = some e → e ≠ 0 →
      (OAuth.fetchTokenSuccess s resp now).tokenExpiry = some (now + e * 1000)) ∧
    (resp.expires_in = none →
      (OAuth.fetchTokenSuccess s resp now).tokenExpiry = some (now + 3600 * 1000)) ∧
    (resp.expires_in = some 0 →
      (OAuth.fetchTokenSuccess s resp now).tokenExpiry = some (now + 3600 * 1000)) := by
  refine ⟨rfl, ?_, ?_, ?_⟩
  · intro e he hne
    simp [OAuth.fetchTokenSuccess, OAuth.jsOrNum, he, hne]
  · intro he
    simp [OAuth.fetchTokenSuccess, OAuth.jsOrNum, he]
  · intro he
    simp [OAuth.fetchTokenSuccess, OAuth.jsOrNum, he]

/-- Witness for C5 (amended): a reported nonzero lifetime of 7 seconds at
fetch time 5 yields expiry 5 + 7000. -/
theorem C5_expiry_from_reported_lifetime_or_default_witness :
    (OAuth.fetchTokenSuccess { token := none, tokenExpiry := none }
      { access_token := "tk", expires_in := some 7 } 5).tokenExpiry = some (5 + 7 * 1000) :=
  (C5_expiry_from_reported_lifetime_or_default
    { token := none, tokenExpiry := none }
    { access_token := "tk", expires_in := some 7 } 5).2.1 7 rfl (by decide)

/-- C7: a failed scheduled background refresh leaves the credential state
exactly as it was: the cached token and expiry are untouched,
`hasValidToken()` gives the same answer at every clock time (in particular
it stays `true` for a truthy token until the stored expiry instant), and
while the credential is still valid `getToken()` keeps resolving with the
cached token without fetching. -/
theorem C7_scheduled_refresh_failure_is_swallowed (s : OAuth.OAuthState)
    (e : String) (now t : Nat) :
    OAuth.scheduledRefresh s (.error e) now = s ∧
    OAuth.hasValidToken (OAuth.scheduledRefresh s (.error e) now) t =
      OAuth.hasValidToken s t ∧
    (OAuth.truthyToken s.token = true → t < s.tokenExpiry.getD 0 →
      OAuth.hasValidToken (OAuth.scheduledRefresh s (.error e) now) t = true) ∧
    (∀ tok, s.token = some tok → OAuth.hasValidToken s t = true →
      OAuth.getTokenStep (OAuth.scheduledRefresh s (.error e) now) t = .cached tok) := by
  refine ⟨rfl, rfl, ?_, ?_⟩
  · intro htok hexp
    simp [OAuth.scheduledRefresh, OAuth.fetchTokenFailure, OAuth.hasValidToken, htok, hexp]
  · intro tok htok hvalid
    simp [OAuth.scheduledRefresh, OAuth.fetchTokenFailure, OAuth.getTokenStep, hvalid, htok]

/-- Witness for C7 at a concrete valid credential surviving a failed
refresh. -/
theorem C7_scheduled_refresh_failure_is_swallowed_witness :
    ((OAuth.OAuthState.mk (some "tok") (some 100)).token = some "tok" ∧
      OAuth.hasValidToken (OAuth.OAuthState.mk (some "tok") (some 100)) 60 = true) ∧
    OAuth.getTokenStep
      (OAuth.scheduledRefresh (OAuth.OAuthState.mk (some "tok") (some 100))
        (.error "boom") 50) 60 = .cached "tok" :=
  ⟨⟨by decide, by decide⟩,
    (C7_scheduled_refresh_failure_is_swallowed
      (OAuth.OAuthState.mk (some "tok") (some 100)) "boom" 50 60).2.2.2
      "tok" rfl (by decide)⟩

/-- C2 counterexample: a request with no Authorization header sent to the
completion endpoint is not rejected — `handleCompletion` performs no header
check, so with a healthy token and upstream the request is forwarded and
answered 200 with metrics events recorded, where the claim requires a 401,
no upstream call and no events. -/
theorem C2_counterexample_completion_has_no_auth_check :
    Handler.bearerOk none = false ∧
    (Handler.handleCompletion
      { authorization := none, model := some "gpt-4", params := Handler.noParams }
      Handler.defaultConfig
      { getTokenResult := .ok "tok", upstream := .ok 200 } "r1").status = 200 ∧
    (Handler.handleCompletion
      { authorization := none, model := some "gpt-4", params := Handler.noParams }
      Handler.defaultConfig
      { getTokenResult := .ok "tok", upstream := .ok 200 } "r1").status ≠ 401 ∧
    (Handler.handleCompletion
      { authorization := none, model := some "gpt-4", params := Handler.noParams }
      Handler.defaultConfig
      { getTokenResult := .ok "tok", upstream := .ok 200 } "r1").events ≠ [] ∧
    (Handler.handleCompletion
      { authorization := none, model := some "gpt-4", params := Handler.noParams }
      Handler.defaultConfig
      { getTokenResult := .ok "tok", upstream := .ok 200 } "r1").calledUpstream = true := by
  refine ⟨rfl, rfl, ?_, ?_, rfl⟩ <;> decide

/-- C2 (amended): only the chat endpoint guards the Authorization header —
there a missing or malformed header (one not starting with a bearer marker)
yields an immediate 401 with the error envelope, no upstream call and no
metrics events; the completion endpoint performs no Authorization check at
all, behaving identically whether or not the header is present. -/
theorem C2_auth_gate_only_on_chat_endpoint (req : Handler.InboundRequest)
    (cfg : Handler.ProxyConfig) (env : Handler.HandlerEnv) (rid : String)
    (h : Handler.bearerOk req.authorization = false) :
    Handler.handleChatCompletion req cfg env rid =
      { status := 401, body := .authError, events := []
        calledUpstream := false, forwarded := none } ∧
    Handler.handleCompletion req cfg env rid =
      Handler.handleCompletion { req with authorization := some "Bearer x" } cfg env rid := by
  constructor
  · simp [Handler.handleChatCompletion, h]
  · cases req
    rfl

/-- Witness for C2 (amended) at a concrete header-less request. -/
theorem C2_auth_gate_only_on_chat_endpoint_witness :
    Handler.bearerOk none = false ∧
    (Handler.handleChatCompletion
        { authorization := none, model := some "m", params := Handler.noParams }
        Handler.defaultConfig
        { getTokenResult := .ok "tok", upstream := .ok 200 } "r2" =
      { status := 401, body := .authError, events := []
        calledUpstream := false, forwarded := none } ∧
    Handler.handleCompletion
        { authorization := none, model := some "m", params := Handler.noParams }
        Handler.defaultConfig
        { getTokenResult := .ok "tok", upstream := .ok 200 } "r2" =
      Handler.handleCompletion
        { authorization := some "Bearer x", model := some "m", params := Handler.noParams }
        Handler.defaultConfig
        { getTokenResult := .ok "tok", upstream := .ok 200 } "r2") :=
  ⟨rfl, C2_auth_gate_only_on_chat_endpoint
    { authorization := none, model := some "m", params := Handler.noParams }
    Handler.defaultConfig
    { getTokenResult := .ok "tok", upstream := .ok 200 } "r2" rfl⟩

/-- C3 counterexample: a caller-supplied explicit `max_tokens: 0` is not
forwarded unchanged — the merge tests `req.body.max_tokens || default` by
truthiness, so 0 is replaced by the configured default 4096. -/
theorem C3_counterexample_explicit_zero_max_tokens_replaced :
    (Handler.GenParams.max_tokens
      { max_tokens := some 0, temperature := none, top_p := none
        frequency_penalty := none, presence_penalty := none } = some 0) ∧
    (Handler.mergeParams
      { max_tokens := some 0, temperature := none, top_p := none
        frequency_penalty := none, presence_penalty := none }
      Handler.defaultConfig).max_tokens = 4096 ∧
    (Handler.mergeParams
      { max_tokens := some 0, temperature := none, top_p := none
        frequency_penalty := none, presence_penalty := none }
      Handler.defaultConfig).max_tokens ≠ 0 := by
  refine ⟨rfl, rfl, ?_⟩
  decide

/-- C3 (amended): every omitted generation parameter is filled from the
configuration default.  For `temperature`, `top_p`, `frequency_penalty` and
`presence_penalty` an explicit caller value — including 0 — is forwarded
unchanged; for `max_tokens` an explicit nonzero value is forwarded
unchanged, but an explicit falsy value (0) is replaced by the default. -/
theorem C3_defaults_fill_omitted_params (body : Handler.GenParams)
    (cfg : Handler.ProxyConfig) :
    (body.temperature = none →
      (Handler.mergeParams body cfg).temperature = cfg.temperature) ∧
    (∀ v, body.temperature = some v → (Handler.mergeParams body cfg).temperature = v) ∧
    (body.top_p = none → (Handler.mergeParams body cfg).top_p = cfg.topP) ∧
    (∀ v, body.top_p = some v → (Handler.mergeParams body cfg).top_p = v) ∧
    (body.frequency_penalty = none →
      (Handler.mergeParams body cfg).frequency_penalty = cfg.frequencyPenalty) ∧
    (∀ v, body.frequency_penalty = some v →
      (Handler.mergeParams body cfg).frequency_penalty = v) ∧
    (body.presence_penalty = none →
      (Handler.mergeParams body cfg).presence_penalty = cfg.presencePenalty) ∧
    (∀ v, body.presence_penalty = some v →
      (Handler.mergeParams body cfg).presence_penalty = v) ∧
    (body.max_tokens = none → (Handler.mergeParams body cfg).max_tokens = cfg.maxTokens) ∧
    (body.max_tokens = some 0 → (Handler.mergeParams body cfg).max_tokens = cfg.maxTokens) ∧
    (∀ v, body.max_tokens = some v → v ≠ 0 →
      (Handler.mergeParams body cfg).max_tokens = v) := by
  refine ⟨?_, ?_, ?_, ?_, ?_, ?_, ?_, ?_, ?_, ?_, ?_⟩ <;>
    first
      | (intro v h hv; simp [Handler.mergeParams, h, hv])
      | (intro v h; simp [Handler.mergeParams, h])
      | (intro h; simp [Handler.mergeParams, h])

/-- Witness for C3 (amended): an explicit `temperature: 0` survives the
merge and an explicit nonzero `max_tokens: 50` survives the merge. -/
theorem C3_defaults_fill_omitted_params_witness :
    (Handler.mergeParams
      { max_tokens := some 50, temperature := some 0, top_p := none
        frequency_penalty := none, presence_penalty := none }
      Handler.defaultConfig).temperature = 0 ∧
    (Handler.mergeParams
      { max_tokens := some 50, temperature := some 0, top_p := none
        frequency_penalty := none, presence_penalty := none }
      Handler.defaultConfig).max_tokens = 50 :=
  ⟨(C3_defaults_fill_omitted_params
      { max_tokens := some 50, temperature := some 0, top_p := none
        frequency_penalty := none, presence_penalty := none }
      Handler.defaultConfig).2.1 0 rfl,
   (C3_defaults_fill_omitted_params
      { max_tokens := some 50, temperature := some 0, top_p := none
        frequency_penalty := none, presence_penalty := none }
      Handler.defaultConfig).2.2.2.2.2.2.2.2.2.2 50 rfl (by decide)⟩

/-- C4 counterexample: when the credential fetch raises (here a network
failure) on an authorized chat request, the catch block records an error
ResponseEvent although no RequestEvent was ever recorded — the recorded
event list is a lone ResponseEvent, contradicting the claim that no
ResponseEvent is recorded without a matching prior RequestEvent. -/
theorem C4_counterexample_response_event_without_request_event :
    (Handler.handleChatCompletion
      { authorization := some "Bearer k", model := some "m", params := Handler.noParams }
      Handler.defaultConfig
      { getTokenResult := .error { message := "boom", responseStatus := none }
        upstream := .ok 200 } "r1").events =
      [Handler.MetricsEvent.response "r1" "error"] ∧
    (Handler.handleChatCompletion
      { authorization := some "Bearer k", model := some "m", params := Handler.noParams }
      Handler.defaultConfig
      { getTokenResult := .error { message := "boom", responseStatus := none }
        upstream := .ok 200 } "r1").events.any Handler.MetricsEvent.isRequest = false := by
  refine ⟨?_, ?_⟩ <;> decide

/-- C4 (amended): on an authorized request, when the credential fetch
succeeds each endpoint records exactly one RequestEvent followed by exactly
one ResponseEvent with the same request id (success or error); but when the
credential fetch raises, a single error ResponseEvent is recorded with no
prior RequestEvent. -/
theorem C4_request_then_response_unless_token_fetch_raises
    (req : Handler.InboundRequest) (cfg : Handler.ProxyConfig) (env : Handler.HandlerEnv)
    (rid : String) (hauth : Handler.bearerOk req.authorization = true) :
    (∀ tok, env.getTokenResult = .ok tok → ∃ st,
      (Handler.handleChatCompletion req cfg env rid).events =
        [Handler.MetricsEvent.request rid req.model "/v1/chat/completions",
         Handler.MetricsEvent.response rid st] ∧
      (Handler.handleCompletion req cfg env rid).events =
        [Handler.MetricsEvent.request rid req.model "/v1/completions",
         Handler.MetricsEvent.response rid st] ∧
      (st = "success" ∨ st = "error")) ∧
    (∀ e, env.getTokenResult = .error e →
      (Handler.handleChatCompletion req cfg env rid).events =
        [Handler.MetricsEvent.response rid "error"] ∧
      (Handler.handleCompletion req cfg env rid).events =
        [Handler.MetricsEvent.response rid "error"]) := by
  constructor
  · intro tok htok
    cases hup : env.upstream with
    | ok st =>
      exact ⟨"success",
        by simp [Handler.handleChatCompletion, hauth, htok, hup],
        by simp [Handler.handleCompletion, htok, hup],
        Or.inl rfl⟩
    | error e =>
      exact ⟨"error",
        by simp [Handler.handleChatCompletion, hauth, htok, hup],
        by simp [Handler.handleCompletion, htok, hup],
        Or.inr rfl⟩
  · intro e he
    exact ⟨by simp [Handler.handleChatCompletion, hauth, he],
           by simp [Handler.handleCompletion, he]⟩

/-- Witness for C4 (amended) at a concrete authorized request with a
successful token fetch and upstream call. -/
theorem C4_request_then_response_unless_token_fetch_raises_witness :
    Handler.bearerOk (some "Bearer k") = true ∧
    ((∀ tok,
      ({ getTokenResult := .ok "tok", upstream := .ok 200 } :
          Handler.HandlerEnv).getTokenResult = .ok tok → ∃ st,
      (Handler.handleChatCompletion
        { authorization := some "Bearer k", model := some "m", params := Handler.noParams }
        Handler.defaultConfig
        { getTokenResult := .ok "tok", upstream := .ok 200 } "r3").events =
        [Handler.MetricsEvent.request "r3" (some "m") "/v1/chat/completions",
         Handler.MetricsEvent.response "r3" st] ∧
      (Handler.handleCompletion
        { authorization := some "Bearer k", model := some "m", params := Handler.noParams }
        Handler.defaultConfig
        { getTokenResult := .ok "tok", upstream := .ok 200 } "r3").events =
        [Handler.MetricsEvent.request "r3" (some "m") "/v1/completions",
         Handler.MetricsEvent.response "r3" st] ∧
      (st = "success" ∨ st = "error")) ∧
    (∀ e,
      ({ getTokenResult := .ok "tok", upstream := .ok 200 } :
          Handler.HandlerEnv).getTokenResult = .error e →
      (Handler.handleChatCompletion
        { authorization := some "Bearer k", model := some "m", params := Handler.noParams }
        Handler.defaultConfig
        { getTokenResult := .ok "tok", upstream := .ok 200 } "r3").events =
        [Handler.MetricsEvent.response "r3" "error"] ∧
      (Handler.handleCompletion
        { authorization := some "Bearer k", model := some "m", params := Handler.noParams }
        Handler.defaultConfig
        { getTokenResult := .ok "tok", upstream := .ok 200 } "r3").events =
        [Handler.MetricsEvent.response "r3" "error"])) :=
  ⟨by decide, C4_request_then_response_unless_token_fetch_raises
    { authorization := some "Bearer k", model := some "m", params := Handler.noParams }
    Handler.defaultConfig
    { getTokenResult := .ok "tok", upstream := .ok 200 } "r3" (by decide)⟩

namespace Metrics

/-- One `recordRequest` never leaves more than the capacity stored. -/
theorem recordRequest_requests_le (s : MetricsState) (d : RequestEvent) (now : Nat) :
    (recordRequest s d now).requests.length ≤ maxStoredRequests := by
  simp only [recordRequest]
  split
  · rw [List.length_drop]
    omega
  · omega

/-- `mapSet` either replaces a binding in place or appends one. -/
theorem mapSet_length (l : List (String × ResponseEvent)) (k : String) (v : ResponseEvent) :
    (mapSet l k v).length = l.length ∨ (mapSet l k v).length = l.length + 1 := by
  induction l with
  | nil => right; rfl
  | cons p l ih =>
    by_cases h : p.1 = k
    · left; simp [mapSet, h]
    · rcases ih with ih | ih
      · left; simp [mapSet, h, ih]
      · right; simp [mapSet, h, ih]

/-- One `recordResponse` preserves the capacity bound on stored responses. -/
theorem recordResponse_responses_le (s : MetricsState) (r : ResponseEvent)
    (h : s.responses.length ≤ maxStoredRequests) :
    (recordResponse s r).responses.length ≤ maxStoredRequests := by
  simp only [recordResponse]
  rcases mapSet_length s.responses r.id r with hm | hm <;>
    split <;> (try rw [List.length_drop]) <;> omega

/-- Any sequence of collector calls preserves the request-buffer bound. -/
theorem applyOps_requests_le (ops : List MetricsOp) (s : MetricsState)
    (h : s.requests.length ≤ maxStoredRequests) :
    (applyOps s ops).requests.length ≤ maxStoredRequests := by
  induction ops generalizing s with
  | nil => exact h
  | cons op ops ih =>
    cases op with
    | req d now => exact ih _ (recordRequest_requests_le s d now)
    | resp d => exact ih _ h

/-- Any sequence of collector calls preserves the response-buffer bound. -/
theorem applyOps_responses_le (ops : List MetricsOp) (s : MetricsState)
    (h : s.responses.length ≤ maxStoredRequests) :
    (applyOps s ops).responses.length ≤ maxStoredRequests := by
  induction ops generalizing s with
  | nil => exact h
  | cons op ops ih =>
    cases op with
    | req d now => exact ih _ h
    | resp d => exact ih _ (recordResponse_responses_le s d h)

/-- Setting a key not yet in the map appends at the end. -/
theorem mapSet_of_fresh (l : List (String × ResponseEvent)) (k : String) (v : ResponseEvent)
    (h : k ∉ l.map Prod.fst) : mapSet l k v = l ++ [(k, v)] := by
  induction l with
  | nil => rfl
  | cons p l ih =>
    simp only [List.map_cons, List.mem_cons, not_or] at h
    have h1 : p.1 ≠ k := fun hh => h.1 hh.symm
    simp [mapSet, h1, ih h.2]

/-- At capacity, `recordRequest` evicts exactly the oldest stored request. -/
theorem recordRequest_full_evicts (s : MetricsState) (d : RequestEvent) (now : Nat)
    (h : s.requests.length = maxStoredRequests) :
    (recordRequest s d now).requests = s.requests.tail ++ [{ d with timestamp := now }] := by
  simp only [recordRequest]
  have hgt : (s.requests ++ [{ d with timestamp := now }]).length > maxStoredRequests := by
    simp [h, maxStoredRequests]
  rw [if_pos hgt]
  have hlen : (s.requests ++ [{ d with timestamp := now }]).length = maxStoredRequests + 1 := by
    simp [h]
  rw [hlen, Nat.add_sub_cancel_left]
  rw [List.drop_append_of_le_length (by rw [h]; decide)]
  rw [List.drop_one]

/-- At capacity with a fresh id, `recordResponse` evicts exactly the
oldest-inserted binding. -/
theorem recordResponse_full_evicts (s : MetricsState) (r : ResponseEvent)
    (hlen : s.responses.length = maxStoredRequests)
    (hfresh : r.id ∉ s.responses.map Prod.fst) :
    (recordResponse s r).responses = s.responses.tail ++ [(r.id, r)] := by
  simp only [recordResponse]
  rw [mapSet_of_fresh _ _ _ hfresh]
  have hgt : (s.responses ++ [(r.id, r)]).length > maxStoredRequests := by
    simp [hlen, maxStoredRequests]
  rw [if_pos hgt]
  rw [List.drop_append_of_le_length (by rw [hlen]; decide)]
  rw [List.drop_one]

/-- For a realistic clock the 24 initialised hour keys are distinct. -/
theorem hourKeys_nodup (now : Nat) (h : 23 * msPerHour ≤ now) :
    (hourKeys now).Nodup := by
  have hms : 0 < msPerHour := by decide
  have h23 : 23 ≤ now / msPerHour := (Nat.le_div_iff_mul_le hms).mpr h
  unfold hourKeys
  refine List.Nodup.map_on ?_ (List.nodup_reverse.mpr (List.nodup_range 24))
  intro i hi j hj hij
  rw [List.mem_reverse, List.mem_range] at hi hj
  have hle : ∀ x : Nat, x < 24 → msPerHour * x ≤ now := by
    intro x hx
    calc msPerHour * x ≤ msPerHour * 23 := Nat.mul_le_mul_left _ (by omega)
      _ = 23 * msPerHour := Nat.mul_comm _ _
      _ ≤ now := h
  have di : (now - i * msPerHour) / msPerHour = now / msPerHour - i := by
    rw [Nat.mul_comm]
    exact Nat.sub_mul_div now msPerHour i (hle i hi)
  have dj : (now - j * msPerHour) / msPerHour = now / msPerHour - j := by
    rw [Nat.mul_comm]
    exact Nat.sub_mul_div now msPerHour j (hle j hj)
  rw [di, dj] at hij
  omega

/-- First-binding lookup on a cons cell. -/
theorem getObj_cons (p : String × Nat) (l : List (String × Nat)) (m : String) :
    getObj (p :: l) m = if p.1 = m then p.2 else getObj l m := by
  unfold getObj
  rw [List.find?_cons]
  by_cases h : p.1 = m
  · simp [h]
  · simp [h]

/-- `objIncr` bumps exactly the looked-up counter of its key. -/
theorem getObj_objIncr (l : List (String × Nat)) (k m : String) :
    getObj (objIncr l k) m = if m = k then getObj l m + 1 else getObj l m := by
  induction l with
  | nil =>
    by_cases h : m = k <;> simp [objIncr, getObj_cons, getObj, h, eq_comm]
  | cons p l ih =>
    by_cases hpk : p.1 = k
    · rw [show objIncr (p :: l) k = (p.1, p.2 + 1) :: l from by simp [objIncr, hpk]]
      rw [getObj_cons, getObj_cons]
      by_cases hpm : p.1 = m <;> by_cases hmk : m = k <;> simp_all
    · rw [show objIncr (p :: l) k = p :: objIncr l k from by simp [objIncr, hpk]]
      rw [getObj_cons, getObj_cons, ih]
      by_cases hpm : p.1 = m <;> by_cases hmk : m = k <;> simp_all

/-- Success counter accumulates one per success `recordResponse` call. -/
theorem applyOps_success_eq (ops : List MetricsOp) (s : MetricsState) :
    (applyOps s ops).successCount = s.successCount + ops.countP isSuccessRespOp := by
  induction ops generalizing s with
  | nil => simp [applyOps]
  | cons op ops ih =>
    have hstep : applyOps s (op :: ops) = applyOps (applyOp s op) ops := rfl
    rw [hstep, ih, List.countP_cons]
    cases op with
    | req d now => simp [applyOp, recordRequest, isSuccessRespOp]
    | resp d =>
      simp only [applyOp, recordResponse, isSuccessRespOp]
      by_cases h : d.status = "success"
      · simp [h]
        omega
      · simp [h]

/-- Error counter accumulates one per non-success `recordResponse` call. -/
theorem applyOps_error_eq (ops : List MetricsOp) (s : MetricsState) :
    (applyOps s ops).errorCount = s.errorCount + ops.countP isErrorRespOp := by
  induction ops generalizing s with
  | nil => simp [applyOps]
  | cons op ops ih =>
    have hstep : applyOps s (op :: ops) = applyOps (applyOp s op) ops := rfl
    rw [hstep, ih, List.countP_cons]
    cases op with
    | req d now => simp [applyOp, recordRequest, isErrorRespOp]
    | resp d =>
      simp only [applyOp, recordResponse, isErrorRespOp]
      by_cases h : d.status = "success"
      · simp [h]
      · simp [h]
        omega

/-- Every `recordResponse` call is counted once, as success or as error. -/
theorem countP_resp_split (ops : List MetricsOp) :
    ops.countP isRespOp = ops.countP isSuccessRespOp + ops.countP isErrorRespOp := by
  induction ops with
  | nil => rfl
  | cons op ops ih =>
    rw [List.countP_cons, List.countP_cons, List.countP_cons, ih]
    cases op with
    | req d now => simp [isRespOp, isSuccessRespOp, isErrorRespOp]
    | resp d =>
      by_cases h : d.status = "success" <;>
        simp [isRespOp, isSuccessRespOp, isErrorRespOp, h] <;> omega

/-- Per-model counters accumulate one per truthy-model `recordRequest`. -/
theorem applyOps_model_eq (ops : List MetricsOp) (s : MetricsState) (m : String) :
    getObj (applyOps s ops).modelCounts m
      = getObj s.modelCounts m + ops.countP (opCountsModel m) := by
  induction ops generalizing s with
  | nil => simp [applyOps]
  | cons op ops ih =>
    have hstep : applyOps s (op :: ops) = applyOps (applyOp s op) ops := rfl
    rw [hstep, ih, List.countP_cons]
    cases op with
    | resp d => simp [applyOp, recordResponse, opCountsModel]
    | req d now =>
      obtain ⟨did, dmodel, dep, dts⟩ := d
      cases dmodel with
      | none => simp [applyOp, recordRequest, opCountsModel]
      | some mm =>
        by_cases hmm : mm = ""
        · subst hmm
          by_cases hm : m = ""
          · simp [applyOp, recordRequest, opCountsModel, hm]
          · simp [applyOp, recordRequest, opCountsModel, hm]
            exact fun hh => hm hh.symm
        · by_cases hm : m = mm
          · subst hm
            simp [applyOp, recordRequest, opCountsModel, hmm, getObj_objIncr]
            omega
          · simp [applyOp, recordRequest, opCountsModel, hmm, hm, getObj_objIncr]
            exact fun hh => absurd hh.symm hm

end Metrics

/-- C6: starting from a fresh collector, no sequence of `recordRequest` and
`recordResponse` calls ever leaves more than 100 stored requests or more
than 100 stored response bindings; and at capacity the entry evicted is the
oldest-inserted one — `recordRequest` drops the head of the request
sequence, and `recordResponse` on a fresh id deletes the first key in
insertion order (pure insertion-order FIFO, independent of which entries
were read). -/
theorem C6_buffers_bounded_with_fifo_eviction (startTime : Nat)
    (ops : List Metrics.MetricsOp) (s : Metrics.MetricsState)
    (d : Metrics.RequestEvent) (now : Nat) (r : Metrics.ResponseEvent)
    (hreq : s.requests.length = Metrics.maxStoredRequests)
    (hresp : s.responses.length = Metrics.maxStoredRequests)
    (hfresh : r.id ∉ s.responses.map Prod.fst) :
    (Metrics.applyOps (Metrics.initMetrics startTime) ops).requests.length
      ≤ Metrics.maxStoredRequests ∧
    (Metrics.applyOps (Metrics.initMetrics startTime) ops).responses.length
      ≤ Metrics.maxStoredRequests ∧
    (Metrics.recordRequest s d now).requests
      = s.requests.tail ++ [{ d with timestamp := now }] ∧
    (Metrics.recordResponse s r).responses
      = s.responses.tail ++ [(r.id, r)] :=
  ⟨Metrics.applyOps_requests_le ops _ (by simp [Metrics.initMetrics]),
   Metrics.applyOps_responses_le ops _ (by simp [Metrics.initMetrics]),
   Metrics.recordRequest_full_evicts s d now hreq,
   Metrics.recordResponse_full_evicts s r hresp hfresh⟩

/-- Witness for C6 at a collector state holding exactly 100 requests and 100
responses, recording one more of each. -/
theorem C6_buffers_bounded_with_fifo_eviction_witness :
    (Metrics.sampleFullState.requests.length = Metrics.maxStoredRequests ∧
     Metrics.sampleFullState.responses.length = Metrics.maxStoredRequests ∧
     ("b" : String) ∉ Metrics.sampleFullState.responses.map Prod.fst) ∧
    ((Metrics.applyOps (Metrics.initMetrics 0) []).requests.length
        ≤ Metrics.maxStoredRequests ∧
     (Metrics.applyOps (Metrics.initMetrics 0) []).responses.length
        ≤ Metrics.maxStoredRequests ∧
     (Metrics.recordRequest Metrics.sampleFullState
        { id := "x", model := some "mm", endpoint := "/v1/completions", timestamp := 77 }
        5).requests
        = Metrics.sampleFullState.requests.tail ++
          [{ id := "x", model := some "mm", endpoint := "/v1/completions", timestamp := 5 }] ∧
     (Metrics.recordResponse Metrics.sampleFullState
        { id := "b", duration := 2, status := "error", error := none }).responses
        = Metrics.sampleFullState.responses.tail ++
          [("b", { id := "b", duration := 2, status := "error", error := none })]) :=
  ⟨⟨by decide, by decide, by decide⟩,
   C6_buffers_bounded_with_fifo_eviction 0 [] Metrics.sampleFullState
     { id := "x", model := some "mm", endpoint := "/v1/completions", timestamp := 77 }
     5 { id := "b", duration := 2, status := "error", error := none }
     (by decide) (by decide) (by decide)⟩

/-- C8: for every collector state — in particular the empty one — the hourly
histogram has exactly 24 entries, its keys are precisely the 24 trailing
calendar hours (pairwise distinct for any realistic clock), and with no
stored requests every bucket is present with count 0. -/
theorem C8_hourly_histogram_always_24_buckets (s : Metrics.MetricsState) (now : Nat)
    (h : 23 * Metrics.msPerHour ≤ now) :
    (Metrics.getHourlyStats s now).length = 24 ∧
    (Metrics.getHourlyStats s now).map Prod.fst = Metrics.hourKeys now ∧
    ((Metrics.getHourlyStats s now).map Prod.fst).Nodup ∧
    (s.requests = [] → ∀ p ∈ Metrics.getHourlyStats s now, p.2 = 0) := by
  have hmap : (Metrics.getHourlyStats s now).map Prod.fst = Metrics.hourKeys now := by
    simp only [Metrics.getHourlyStats, List.map_map]
    exact List.map_id _
  refine ⟨?_, hmap, ?_, ?_⟩
  · simp [Metrics.getHourlyStats, Metrics.hourKeys]
  · rw [hmap]
    exact Metrics.hourKeys_nodup now h
  · intro he p hp
    simp [Metrics.getHourlyStats, he] at hp
    rcases hp with ⟨k, hk, rfl⟩
    rfl

/-- Witness for C8 at the earliest realistic clock and an empty collector. -/
theorem C8_hourly_histogram_always_24_buckets_witness :
    23 * Metrics.msPerHour ≤ 23 * Metrics.msPerHour ∧
    ((Metrics.getHourlyStats (Metrics.initMetrics 0) (23 * Metrics.msPerHour)).length = 24 ∧
     (Metrics.getHourlyStats (Metrics.initMetrics 0) (23 * Metrics.msPerHour)).map Prod.fst
        = Metrics.hourKeys (23 * Metrics.msPerHour) ∧
     ((Metrics.getHourlyStats (Metrics.initMetrics 0) (23 * Metrics.msPerHour)).map
        Prod.fst).Nodup ∧
     ((Metrics.initMetrics 0).requests = [] →
       ∀ p ∈ Metrics.getHourlyStats (Metrics.initMetrics 0) (23 * Metrics.msPerHour),
         p.2 = 0)) :=
  ⟨le_refl _,
   C8_hourly_histogram_always_24_buckets (Metrics.initMetrics 0)
     (23 * Metrics.msPerHour) (le_refl _)⟩

/-- C10: the totals reported by `getMetrics` and `getSummary` and the
per-model counters are cumulative over every call recorded since
construction (or the last reset, which restores the constructed counters):
they equal the number of matching `recordResponse`/`recordRequest` calls in
the whole history, while the stored buffers stay bounded by 100 — so the
counts can exceed the number of events still stored. -/
theorem C10_counters_cumulative_despite_eviction (startTime now : Nat)
    (ops : List Metrics.MetricsOp) (m : String) :
    (Metrics.getSummary (Metrics.applyOps (Metrics.initMetrics startTime) ops)).total
      = ops.countP Metrics.isRespOp ∧
    (Metrics.getSummary (Metrics.applyOps (Metrics.initMetrics startTime) ops)).success
      = ops.countP Metrics.isSuccessRespOp ∧
    (Metrics.getSummary (Metrics.applyOps (Metrics.initMetrics startTime) ops)).errors
      = ops.countP Metrics.isErrorRespOp ∧
    (Metrics.getMetrics (Metrics.applyOps (Metrics.initMetrics startTime) ops) now).totalRequests
      = ops.countP Metrics.isRespOp ∧
    Metrics.getObj (Metrics.applyOps (Metrics.initMetrics startTime) ops).modelCounts m
      = ops.countP (Metrics.opCountsModel m) ∧
    (Metrics.applyOps (Metrics.initMetrics startTime) ops).requests.length
      ≤ Metrics.maxStoredRequests ∧
    (Metrics.applyOps (Metrics.initMetrics startTime) ops).responses.length
      ≤ Metrics.maxStoredRequests := by
  have hs := Metrics.applyOps_success_eq ops (Metrics.initMetrics startTime)
  have he := Metrics.applyOps_error_eq ops (Metrics.initMetrics startTime)
  have hm := Metrics.applyOps_model_eq ops (Metrics.initMetrics startTime) m
  have hsplit := Metrics.countP_resp_split ops
  refine ⟨?_, ?_, ?_, ?_, ?_, ?_, ?_⟩
  · simp only [Metrics.getSummary]
    rw [hs, he, hsplit]
    simp [Metrics.initMetrics]
  · simp only [Metrics.getSummary]
    rw [hs]
    simp [Metrics.initMetrics]
  · simp only [Metrics.getSummary]
    rw [he]
    simp [Metrics.initMetrics]
  · simp only [Metrics.getMetrics]
    rw [hs, he, hsplit]
    simp [Metrics.initMetrics]
  · rw [hm]
    simp [Metrics.initMetrics, Metrics.getObj]
  · exact Metrics.applyOps_requests_le ops _ (by simp [Metrics.initMetrics])
  · exact Metrics.applyOps_responses_le ops _ (by simp [Metrics.initMetrics])
